import Mathlib

/-!
Verification of the ChatWise → Nowledge Mem import tool
(`chatwise_to_nowledge.py`).

The data of the program is JSON read into Python dicts/lists; we embed JSON
values as an inductive type and the relevant Python dict/str operations
as explicit functions, tracking which Python exceptions each operation
can raise.  Network calls are modelled by passing the observable outcome
of each HTTP request (status code, body, or the exception class raised)
as an argument to the embedded function.
-/

set_option maxHeartbeats 1000000
set_option maxRecDepth 100000

namespace ChatwiseToNowledge

/-- A JSON value as decoded by the Python `json` module.  Numbers are
modelled as integers (the program never manipulates numeric fields). -/
inductive Json where
  | null
  | bool (b : Bool)
  | num (n : Int)
  | str (s : String)
  | arr (xs : List Json)
  | obj (fields : List (String × Json))

/-- The Python exception classes that the operations used by the program
can raise. -/
inductive PyExc where
  | jsonDecodeError
  | keyError
  | attributeError
  | typeError
deriving DecidableEq

/-- First-match lookup of a key in a decoded JSON object (Python dicts
decoded from JSON have unique keys, so first-match agrees with dict
lookup). -/
def jsonLookup (key : String) : List (String × Json) → Option Json
  | [] => none
  | (k, v) :: rest => if k = key then some v else jsonLookup key rest

/-- Python `d.get(key, default)` on a value that must be a dict:
`AttributeError` when the value is not a dict. -/
def pyGet (j : Json) (key : String) (default : Json) : Except PyExc Json :=
  match j with
  | .obj fields => .ok ((jsonLookup key fields).getD default)
  | _ => .error .attributeError

/-- Python iteration `for x in v`: lists yield their elements, strings
their characters (as one-character strings), dicts their keys; other
values raise `TypeError`. -/
def pyIterate : Json → Option (List Json)
  | .arr xs => some xs
  | .str s => some (s.data.map (fun c => Json.str (String.singleton c)))
  | .obj fields => some (fields.map (fun kv => Json.str kv.fst))
  | _ => none

/-- Python truthiness of a JSON-decoded value. -/
def pyTruthy : Json → Bool
  | .null => false
  | .bool b => b
  | .num n => n ≠ 0
  | .str s => s ≠ ""
  | .arr xs => !xs.isEmpty
  | .obj fields => !fields.isEmpty

/-- Python `repr` of a JSON-decoded value (string escaping inside `repr`
is not modelled; the program never inspects these strings). -/
def pyRepr : Json → String
  | .null => "None"
  | .bool true => "True"
  | .bool false => "False"
  | .num n => toString n
  | .str s => "\x27" ++ s ++ "\x27"
  | .arr xs => "[" ++ String.intercalate ", " (xs.attach.map (fun x => pyRepr x.val)) ++ "]"
  | .obj fields =>
      "\x7b" ++
        String.intercalate ", "
          (fields.attach.map (fun kv => "\x27" ++ kv.val.fst ++ "\x27: " ++ pyRepr kv.val.snd)) ++
      "\x7d"
decreasing_by
  · have h := List.sizeOf_lt_of_mem x.property
    simp_wf
    omega
  · have h := List.sizeOf_lt_of_mem kv.property
    have h2 : sizeOf kv.val.snd < sizeOf kv.val := by
      obtain ⟨k, v⟩ := kv.val
      simp
    simp_wf
    omega

/-- Python `str()` of a JSON-decoded value, as used by f-string
formatting. -/
def pyStr : Json → String
  | .str s => s
  | v => pyRepr v

/-- Python slicing `v[:n]`: works on strings and lists, `TypeError`
otherwise (in particular on `None`). -/
def pySlice (v : Json) (n : Nat) : Except PyExc Json :=
  match v with
  | .str s => .ok (.str (s.take n))
  | .arr xs => .ok (.arr (xs.take n))
  | _ => .error .typeError

/-- Python `s.strip()`: remove leading and trailing whitespace. -/
def pyStrip (s : String) : String :=
  String.mk (((s.data.dropWhile Char.isWhitespace).reverse.dropWhile Char.isWhitespace).reverse)

/-- The content of one conversation file: either text that is not valid
JSON (`json.load` raises `JSONDecodeError`) or a decoded JSON value. -/
inductive FileContent where
  | invalid
  | valid (data : Json)

/-- A kept message, as built by `parse_chat_file`:
`{"content": content, "role": msg.get("role", "user")}`.  The content is
always a stripped string; the role is whatever JSON value the source
held (default `"user"`). -/
structure Msg where
  content : String
  role : Json

/-- The dict returned by `parse_chat_file` for one conversation. -/
structure Record where
  thread_id : String
  title : Json
  messages : List Msg
  source : String
  import_date : String
  metadata : List (String × Json)

/-- The message-filtering loop of `parse_chat_file`:
`content = msg.get("content", "").strip(); if not content: continue;
messages.append({"content": content, "role": msg.get("role", "user")})`.
`msg.get` on a non-dict and `.strip()` on a non-string raise
`AttributeError`. -/
def parseMessages : List Json → List Msg → Except PyExc (List Msg)
  | [], acc => .ok acc
  | m :: rest, acc =>
    match m with
    | .obj mf =>
      match (jsonLookup "content" mf).getD (Json.str "") with
      | .str s =>
        let content := pyStrip s
        if content = "" then parseMessages rest acc
        else parseMessages rest (acc ++ [⟨content, (jsonLookup "role" mf).getD (Json.str "user")⟩])
      | _ => .error .attributeError
    | _ => .error .attributeError

/-- The body of the `try` block of `parse_chat_file`: decode the file, filter
messages, and build the record dict, with the Python exception raised
when an operation fails. -/
def parseChatBody (now : String) : FileContent → Except PyExc (Option Record)
  | .invalid => .error .jsonDecodeError
  | .valid data =>
    match data with
    | .obj fields =>
      match pyIterate ((jsonLookup "messages" fields).getD (Json.arr [])) with
      | none => .error .typeError
      | some ms =>
        match parseMessages ms [] with
        | .error e => .error e
        | .ok messages =>
          if messages.isEmpty then .ok none
          else
            match jsonLookup "id" fields with
            | none => .error .keyError
            | some idv =>
              .ok (some
                { thread_id := "chatwise-" ++ pyStr idv
                  title := (jsonLookup "title" fields).getD (Json.str "Untitled")
                  messages := messages
                  source := "chatwise"
                  import_date := now
                  metadata :=
                    [("original_id", idv),
                     ("model", (jsonLookup "model" fields).getD Json.null),
                     ("created_at", (jsonLookup "createdAt" fields).getD Json.null),
                     ("updated_at", (jsonLookup "updatedAt" fields).getD Json.null)] })
    | _ => .error .attributeError

/-- The result of calling `parse_chat_file` on one file: a returned
value (`Some record` or `None`) or an uncaught Python exception. -/
inductive ParseResult where
  | ok (r : Option Record)
  | raised (e : PyExc)

/-- The function `parse_chat_file`: runs the body and catches exactly
`(json.JSONDecodeError, KeyError)`, turning them into a `None` return
(with a printed warning); every other exception propagates.  `now` is
the wall-clock string `datetime.now().isoformat()`. -/
def parse_chat_file (now : String) (fc : FileContent) : ParseResult :=
  match parseChatBody now fc with
  | .ok r => .ok r
  | .error e =>
    if e = .jsonDecodeError ∨ e = .keyError then .ok none else .raised e

/-- The observable outcome of the `requests.post` call made by
`import_to_nowledge`: a response (status code, body text, and the
decoded JSON body — `none` when `response.json()` would raise), or the
exception class raised by the call. -/
inductive PostOutcome where
  | resp (status : Nat) (text : String) (body : Option Json)
  | connError
  | timeout
  | otherExc (msg : String)

/-- The function `import_to_nowledge`, as a function of the outcome of its single
HTTP POST.  `status_code == 200` → parse the body and report the
created id via `result.get("thread", {}).get("id", "unknown")`; any
exception inside the `try` (JSON decode failure, `.get` on a non-dict)
falls to the generic `except Exception` branch. -/
def import_to_nowledge (outcome : PostOutcome) : Bool × String :=
  match outcome with
  | .resp status text body =>
    if status = 200 then
      match body with
      | none => (false, "未知错误: " ++ "Expecting value")
      | some result =>
        match result with
        | .obj fields =>
          match jsonLookup "thread" fields with
          | none => (true, "成功创建 Thread ID: " ++ pyStr ((jsonLookup "id" []).getD (Json.str "unknown")))
          | some tv =>
            match tv with
            | .obj tfields =>
              (true, "成功创建 Thread ID: " ++ pyStr ((jsonLookup "id" tfields).getD (Json.str "unknown")))
            | _ => (false, "未知错误: " ++ "\x27get\x27")
        | _ => (false, "未知错误: " ++ "\x27get\x27")
    else
      (false, "API 错误 " ++ toString status ++ ": " ++ text.take 200)
  | .connError => (false, "连接失败: 请确保 Nowledge Mem 服务正在运行 (http://127.0.0.1:14242)")
  | .timeout => (false, "请求超时")
  | .otherExc msg => (false, "未知错误: " ++ msg)

/-- The observable outcome of one `requests.get` call made by
`fetch_existing_threads`: a response (status and decoded JSON body,
`none` when `response.json()` would raise) or the exception class
raised. -/
inductive GetOutcome where
  | resp (status : Nat) (body : Option Json)
  | connError
  | timeout
  | otherExc

/-- One pass of the `while True` loop of `fetch_existing_threads`, with
`server limit offset` giving the outcome of the GET at those query
parameters.  `acc` is `all_threads`, `calls` the list of
`(limit, offset)` pairs requested so far, and `fuel` bounds the number
of iterations (`none` = the loop would still be running).  Every
exception inside the `try` — including `AttributeError`/`TypeError`
from `data.get`/`extend` on ill-shaped bodies — is caught by the
`except` clauses, which leave the loop returning `all_threads` as
mutated so far. -/
def fetchLoop (server : Nat → Nat → GetOutcome) :
    Nat → Nat → List Json → List (Nat × Nat) → Option (List Json × List (Nat × Nat))
  | 0, _, _, _ => none
  | fuel + 1, offset, acc, calls =>
    let calls := calls ++ [(100, offset)]
    match server 100 offset with
    | .connError => some (acc, calls)
    | .timeout => some (acc, calls)
    | .otherExc => some (acc, calls)
    | .resp status body =>
      if status ≠ 200 then some (acc, calls)
      else
        match body with
        | none => some (acc, calls)
        | some data =>
          match pyGet data "threads" (Json.arr []) with
          | .error _ => some (acc, calls)
          | .ok threadsVal =>
            match pyIterate threadsVal with
            | none => some (acc, calls)
            | some ts =>
              let acc := acc ++ ts
              match pyGet data "pagination" (Json.obj []) with
              | .error _ => some (acc, calls)
              | .ok pagination =>
                match pyGet pagination "has_more" (Json.bool false) with
                | .error _ => some (acc, calls)
                | .ok hasMore =>
                  if pyTruthy hasMore then fetchLoop server fuel (offset + 100) acc calls
                  else some (acc, calls)

/-- The function `fetch_existing_threads`: run the pagination loop from
`offset = 0` with `limit = 100` and empty accumulator, returning the
accumulated threads and the trace of HTTP calls made. -/
def fetch_existing_threads (server : Nat → Nat → GetOutcome) (fuel : Nat) :
    Option (List Json × List (Nat × Nat)) :=
  fetchLoop server fuel 0 [] []

/-- One interactive choice at the `Prompt.ask` (choices `y`/`n`/`q`,
default `y`). -/
inductive Choice where
  | y
  | n
  | q

/-- The observable state of one `manual_mode` run: the three counters,
the records passed to `import_to_nowledge` (in call order), and whether
the loop was left through the `q` branch. -/
structure ManualResult where
  imported : Nat
  skipped : Nat
  duplicates : Nat
  calls : List Record
  quitted : Bool

/-- The per-record loop of `manual_mode`.  `imp` gives the
`(success, message)` result of `import_to_nowledge` on a record,
`choices` the stream of user answers (indexed by prompt number `pi`).
A duplicate advances without prompting; `q` exits the loop; `n`
increments the skip count; `y` calls create and counts `imported` only
on success. -/
def manualGo (imp : Record → Bool × String) (existing_ids : List String)
    (choices : Nat → Choice) : List Record → Nat → ManualResult → ManualResult
  | [], _, st => st
  | chat :: rest, pi, st =>
    if existing_ids.contains chat.thread_id then
      manualGo imp existing_ids choices rest pi { st with duplicates := st.duplicates + 1 }
    else
      match choices pi with
      | .q => { st with quitted := true }
      | .n => manualGo imp existing_ids choices rest (pi + 1) { st with skipped := st.skipped + 1 }
      | .y =>
        let res := imp chat
        let st := { st with calls := st.calls ++ [chat] }
        manualGo imp existing_ids choices rest (pi + 1)
          (if res.fst then { st with imported := st.imported + 1 } else st)

/-- The call `manual_mode chats existing_ids` under user answers `choices` and
create-call results `imp`. -/
def manual_mode (imp : Record → Bool × String) (chats : List Record)
    (existing_ids : List String) (choices : Nat → Choice) : ManualResult :=
  manualGo imp existing_ids choices chats 0
    { imported := 0, skipped := 0, duplicates := 0, calls := [], quitted := false }

/-- The observable state of one `auto_mode` run: the three counters,
the `(title, message)` error pairs, and the records passed to
`import_to_nowledge` (in call order). -/
structure AutoResult where
  success_count : Nat
  fail_count : Nat
  duplicate_count : Nat
  errors : List (Json × String)
  calls : List Record

/-- The per-record loop of `auto_mode`: a duplicate increments
`duplicate_count`; otherwise create is invoked, incrementing
`success_count` or `fail_count` (recording `(title, message)`). -/
def autoGo (imp : Record → Bool × String) (existing_ids : List String) :
    List Record → AutoResult → AutoResult
  | [], st => st
  | chat :: rest, st =>
    if existing_ids.contains chat.thread_id then
      autoGo imp existing_ids rest { st with duplicate_count := st.duplicate_count + 1 }
    else
      let res := imp chat
      let st := { st with calls := st.calls ++ [chat] }
      autoGo imp existing_ids rest
        (if res.fst then { st with success_count := st.success_count + 1 }
         else { st with fail_count := st.fail_count + 1, errors := st.errors ++ [(chat.title, res.snd)] })

/-- The call `auto_mode chats existing_ids` with create-call results `imp`. -/
def auto_mode (imp : Record → Bool × String) (chats : List Record)
    (existing_ids : List String) : AutoResult :=
  autoGo imp existing_ids chats
    { success_count := 0, fail_count := 0, duplicate_count := 0, errors := [], calls := [] }

/-- The expression `t.get("id", "")`, the dedupe-set entry `main` builds for one
remote thread `t` (`AttributeError` when `t` is not a dict). -/
def dedupeId (t : Json) : Except PyExc Json :=
  match t with
  | .obj fields => .ok ((jsonLookup "id" fields).getD (Json.str ""))
  | _ => .error .attributeError

/-- The created-time cell of `display_chat_summary`:
`chat_data.get("metadata", {}).get("created_at", "N/A")[:19]` (the
`metadata` key is always present on a parsed record). -/
def displayCreatedCell (chat : Record) : Except PyExc Json :=
  pySlice ((jsonLookup "created_at" chat.metadata).getD (Json.str "N/A")) 19

/-- The created-time column of the chat-list table in `main`:
`chat.get("metadata", {}).get("created_at", "")[:10]`. -/
def mainCreatedCell (chat : Record) : Except PyExc Json :=
  pySlice ((jsonLookup "created_at" chat.metadata).getD (Json.str "")) 10

/-! ## Driver lemmas -/

/-- Records passed to create by `autoGo` are never in the dedupe set. -/
theorem autoGo_calls_all (imp : Record → Bool × String) (existing_ids : List String) :
    ∀ (chats : List Record) (st : AutoResult),
      st.calls.all (fun c => !existing_ids.contains c.thread_id) = true →
      (autoGo imp existing_ids chats st).calls.all
        (fun c => !existing_ids.contains c.thread_id) = true := by
  intro chats
  induction chats with
  | nil => intro st h; simpa [autoGo] using h
  | cons chat rest ih =>
    intro st h
    by_cases hc : existing_ids.contains chat.thread_id
    · simp only [autoGo, hc, if_pos]
      exact ih _ h
    · simp only [autoGo, hc, if_neg, Bool.false_eq_true, not_false_iff]
      split
      · apply ih
        simp_all
      · apply ih
        simp_all

/-- The loop `autoGo` adds one duplicate per input record in the dedupe set. -/
theorem autoGo_dup_count (imp : Record → Bool × String) (existing_ids : List String) :
    ∀ (chats : List Record) (st : AutoResult),
      (autoGo imp existing_ids chats st).duplicate_count
        = st.duplicate_count + chats.countP (fun c => existing_ids.contains c.thread_id) := by
  intro chats
  induction chats with
  | nil => intro st; simp [autoGo]
  | cons chat rest ih =>
    intro st
    by_cases hc : existing_ids.contains chat.thread_id
    · simp only [autoGo, hc, if_pos, List.countP_cons, ih]
      simp [hc]
      omega
    · simp only [autoGo, hc, if_neg, Bool.false_eq_true, not_false_iff, List.countP_cons]
      split <;> simp [ih, hc]

/-- Each record processed by `autoGo` increments exactly one of the
three counters. -/
theorem autoGo_partition (imp : Record → Bool × String) (existing_ids : List String) :
    ∀ (chats : List Record) (st : AutoResult),
      (autoGo imp existing_ids chats st).success_count
        + (autoGo imp existing_ids chats st).duplicate_count
        + (autoGo imp existing_ids chats st).fail_count
      = st.success_count + st.duplicate_count + st.fail_count + chats.length := by
  intro chats
  induction chats with
  | nil => intro st; simp [autoGo]
  | cons chat rest ih =>
    intro st
    by_cases hc : existing_ids.contains chat.thread_id
    · simp only [autoGo, hc, if_pos, ih]
      simp
      omega
    · simp only [autoGo, hc, if_neg, Bool.false_eq_true, not_false_iff]
      split <;> (simp [ih]; omega)

/-- Records passed to create by `manualGo` are never in the dedupe set. -/
theorem manualGo_calls_all (imp : Record → Bool × String) (existing_ids : List String)
    (choices : Nat → Choice) :
    ∀ (chats : List Record) (pi : Nat) (st : ManualResult),
      st.calls.all (fun c => !existing_ids.contains c.thread_id) = true →
      (manualGo imp existing_ids choices chats pi st).calls.all
        (fun c => !existing_ids.contains c.thread_id) = true := by
  intro chats
  induction chats with
  | nil => intro pi st h; simpa [manualGo] using h
  | cons chat rest ih =>
    intro pi st h
    by_cases hc : existing_ids.contains chat.thread_id
    · simp only [manualGo, hc, if_pos]
      exact ih _ _ h
    · simp only [manualGo, hc, if_neg, Bool.false_eq_true, not_false_iff]
      cases hcp : choices pi with
      | q => simpa using h
      | n => exact ih _ _ h
      | y =>
        simp only []
        split
        · apply ih
          simp_all
        · apply ih
          simp_all

/-- When the user never answers `q`, `manualGo` adds one duplicate per
input record in the dedupe set. -/
theorem manualGo_dup_count (imp : Record → Bool × String) (existing_ids : List String)
    (choices : Nat → Choice) (hnoq : ∀ i, choices i ≠ Choice.q) :
    ∀ (chats : List Record) (pi : Nat) (st : ManualResult),
      (manualGo imp existing_ids choices chats pi st).duplicates
        = st.duplicates + chats.countP (fun c => existing_ids.contains c.thread_id) := by
  intro chats
  induction chats with
  | nil => intro pi st; simp [manualGo]
  | cons chat rest ih =>
    intro pi st
    by_cases hc : existing_ids.contains chat.thread_id
    · simp only [manualGo, hc, if_pos, List.countP_cons, ih]
      simp [hc]
      omega
    · simp only [manualGo, hc, if_neg, Bool.false_eq_true, not_false_iff, List.countP_cons]
      have hq := hnoq pi
      cases hcp : choices pi with
      | q => exact absurd hcp hq
      | n => simp [ih, hc]
      | y =>
        simp only []
        split <;> simp [ih, hc]

/-- Bound for `manualGo`: the counters grow by at most the number of input
records, and strictly less whenever the run ends in a state whose
`quitted` flag differs from the starting one. -/
theorem manualGo_bound (imp : Record → Bool × String) (existing_ids : List String)
    (choices : Nat → Choice) :
    ∀ (chats : List Record) (pi : Nat) (st : ManualResult),
      ((manualGo imp existing_ids choices chats pi st).imported
        + (manualGo imp existing_ids choices chats pi st).skipped
        + (manualGo imp existing_ids choices chats pi st).duplicates
        ≤ st.imported + st.skipped + st.duplicates + chats.length)
      ∧ ((manualGo imp existing_ids choices chats pi st).quitted = st.quitted
        ∨ (manualGo imp existing_ids choices chats pi st).imported
            + (manualGo imp existing_ids choices chats pi st).skipped
            + (manualGo imp existing_ids choices chats pi st).duplicates
          < st.imported + st.skipped + st.duplicates + chats.length) := by
  intro chats
  induction chats with
  | nil => intro pi st; simp [manualGo]
  | cons chat rest ih =>
    intro pi st
    by_cases hc : existing_ids.contains chat.thread_id
    · simp only [manualGo, hc, if_pos]
      obtain ⟨h1, h2⟩ := ih pi { st with duplicates := st.duplicates + 1 }
      constructor
      · simp at h1 ⊢
        omega
      · rcases h2 with h2 | h2
        · left; simpa using h2
        · right
          simp at h2 ⊢
          omega
    · simp only [manualGo, hc, if_neg, Bool.false_eq_true, not_false_iff]
      cases hcp : choices pi with
      | q =>
        constructor
        · simp
        · right
          simp
      | n =>
        obtain ⟨h1, h2⟩ := ih (pi + 1) { st with skipped := st.skipped + 1 }
        constructor
        · simp at h1 ⊢
          omega
        · rcases h2 with h2 | h2
          · left; simpa using h2
          · right
            simp at h2 ⊢
            omega
      | y =>
        simp only []
        split
        · obtain ⟨h1, h2⟩ := ih (pi + 1)
            { st with calls := st.calls ++ [chat], imported := st.imported + 1 }
          constructor
          · simp at h1 ⊢
            omega
          · rcases h2 with h2 | h2
            · left; simpa using h2
            · right
              simp at h2 ⊢
              omega
        · obtain ⟨h1, h2⟩ := ih (pi + 1) { st with calls := st.calls ++ [chat] }
          constructor
          · simp at h1 ⊢
            omega
          · rcases h2 with h2 | h2
            · left; simpa using h2
            · right
              simp at h2 ⊢
              omega

/-! ## Concrete fixtures used by witnesses -/

/-- A parsed record whose identifier is in the remote id set of the
witness runs. -/
def recDup : Record :=
  { thread_id := "chatwise-dup", title := .str "D", messages := [⟨"hi", .str "user"⟩],
    source := "chatwise", import_date := "t", metadata := [] }

/-- A parsed record whose identifier is fresh in the witness runs. -/
def recNew : Record :=
  { thread_id := "chatwise-new", title := .str "N", messages := [⟨"hey", .str "user"⟩],
    source := "chatwise", import_date := "t", metadata := [] }

/-- A create operation that always succeeds, for witness runs. -/
def impOk : Record → Bool × String := fun _ => (true, "ok")

/-- A user who always answers `y`, for witness runs. -/
def choicesY : Nat → Choice := fun _ => Choice.y

/-! ## Claim theorems -/

/-- C1: in both the interactive and the batch driver, a local record
whose identifier is in the remote id set is never passed to
`import_to_nowledge`, and is counted as a duplicate instead (for the
interactive driver the duplicate count equals the number of duplicate
inputs whenever no `q` answer is given, since `q` stops the loop
early). -/
theorem dedupe_never_creates (imp : Record → Bool × String) (chats : List Record)
    (existing_ids : List String) (choices : Nat → Choice) :
    ((manual_mode imp chats existing_ids choices).calls.all
        (fun c => !existing_ids.contains c.thread_id) = true)
    ∧ ((auto_mode imp chats existing_ids).calls.all
        (fun c => !existing_ids.contains c.thread_id) = true)
    ∧ (auto_mode imp chats existing_ids).duplicate_count
        = chats.countP (fun c => existing_ids.contains c.thread_id)
    ∧ ((∀ i, choices i ≠ Choice.q) →
        (manual_mode imp chats existing_ids choices).duplicates
          = chats.countP (fun c => existing_ids.contains c.thread_id)) := by
  refine ⟨?_, ?_, ?_, ?_⟩
  · exact manualGo_calls_all imp existing_ids choices chats 0 _ (by simp)
  · exact autoGo_calls_all imp existing_ids chats _ (by simp)
  · simpa [auto_mode] using autoGo_dup_count imp existing_ids chats
      { success_count := 0, fail_count := 0, duplicate_count := 0, errors := [], calls := [] }
  · intro hnoq
    simpa [manual_mode] using manualGo_dup_count imp existing_ids choices hnoq chats 0
      { imported := 0, skipped := 0, duplicates := 0, calls := [], quitted := false }

/-- Witness for C1: a run over one duplicate and one fresh record with
a user who always answers `y`. -/
theorem dedupe_never_creates_witness :
    ((manual_mode impOk [recDup, recNew] ["chatwise-dup"] choicesY).calls.all
        (fun c => !(["chatwise-dup"] : List String).contains c.thread_id) = true)
    ∧ (manual_mode impOk [recDup, recNew] ["chatwise-dup"] choicesY).duplicates
        = ([recDup, recNew] : List Record).countP
            (fun c => (["chatwise-dup"] : List String).contains c.thread_id) :=
  ⟨(dedupe_never_creates impOk [recDup, recNew] ["chatwise-dup"] choicesY).1,
   (dedupe_never_creates impOk [recDup, recNew] ["chatwise-dup"] choicesY).2.2.2
     (fun _ h => Choice.noConfusion h)⟩

/-- C2: an uninterrupted `auto_mode` run ends with
`success_count + duplicate_count + fail_count` equal to the number of
input records. -/
theorem auto_mode_counts_partition (imp : Record → Bool × String) (chats : List Record)
    (existing_ids : List String) :
    (auto_mode imp chats existing_ids).success_count
      + (auto_mode imp chats existing_ids).duplicate_count
      + (auto_mode imp chats existing_ids).fail_count
    = chats.length := by
  simpa [auto_mode] using autoGo_partition imp existing_ids chats
    { success_count := 0, fail_count := 0, duplicate_count := 0, errors := [], calls := [] }

/-- C3: a `manual_mode` run ends with
`imported + skipped + duplicates ≤ number of input records`, and
equality forces that the loop was never left through the `q` branch. -/
theorem manual_mode_counts_bound (imp : Record → Bool × String) (chats : List Record)
    (existing_ids : List String) (choices : Nat → Choice) :
    (manual_mode imp chats existing_ids choices).imported
      + (manual_mode imp chats existing_ids choices).skipped
      + (manual_mode imp chats existing_ids choices).duplicates
      ≤ chats.length
    ∧ ((manual_mode imp chats existing_ids choices).imported
        + (manual_mode imp chats existing_ids choices).skipped
        + (manual_mode imp chats existing_ids choices).duplicates
        = chats.length →
      (manual_mode imp chats existing_ids choices).quitted = false) := by
  obtain ⟨h1, h2⟩ := manualGo_bound imp existing_ids choices chats 0
    { imported := 0, skipped := 0, duplicates := 0, calls := [], quitted := false }
  constructor
  · simpa [manual_mode] using h1
  · intro he
    rcases h2 with h2 | h2
    · simpa [manual_mode] using h2
    · exfalso
      simp only [manual_mode] at he
      simp at h2
      omega

/-- Witness for C3: a one-record run where the user answers `y` and the
create succeeds, reaching the bound with equality. -/
theorem manual_mode_counts_bound_witness :
    (manual_mode impOk [recNew] [] choicesY).quitted = false :=
  (manual_mode_counts_bound impOk [recNew] [] choicesY).2 rfl

/-- The body shape under which the 200-branch of `import_to_nowledge`
completes without raising: the decoded body is a dict whose `thread`
field, when present, is itself a dict. -/
def successShape : Option Json → Bool
  | some (.obj fields) =>
    match jsonLookup "thread" fields with
    | none => true
    | some (.obj _) => true
    | some _ => false
  | _ => false

/-- C4 counterexample: HTTP 201 is a success-class response, yet
`import_to_nowledge` (which tests `status_code == 200`) returns failure
for it, with the literal 201 in the message. -/
theorem import_success_class_cex :
    import_to_nowledge (.resp 201 "created"
        (some (.obj [("thread", .obj [("id", .str "t1")])])))
      = (false, "API 错误 201: created") := rfl

/-- C4 (amended): `import_to_nowledge` returns success exactly for
HTTP 200 responses whose body decodes to a dict whose `thread` field,
when present, is a dict; any non-200 response yields failure with the
literal status code and the body truncated to 200 characters;
connection failure, timeout, and any other exception yield distinct
descriptive messages; each call makes a single request attempt. -/
theorem import_outcome_classification (status : Nat) (text : String)
    (body : Option Json) (m : String) :
    ((import_to_nowledge (.resp status text body)).fst = true
      ↔ (status = 200 ∧ successShape body = true))
    ∧ (status ≠ 200 →
        import_to_nowledge (.resp status text body)
          = (false, "API 错误 " ++ toString status ++ ": " ++ text.take 200))
    ∧ import_to_nowledge .connError
        = (false, "连接失败: 请确保 Nowledge Mem 服务正在运行 (http://127.0.0.1:14242)")
    ∧ import_to_nowledge .timeout = (false, "请求超时")
    ∧ import_to_nowledge (.otherExc m) = (false, "未知错误: " ++ m)
    ∧ ("连接失败: 请确保 Nowledge Mem 服务正在运行 (http://127.0.0.1:14242)" : String)
        ≠ "请求超时" := by
  refine ⟨?_, ?_, rfl, rfl, rfl, by decide⟩
  · by_cases hs : status = 200
    · subst hs
      cases body with
      | none => simp [import_to_nowledge, successShape]
      | some j =>
        cases j with
        | obj fields =>
          cases hth : jsonLookup "thread" fields with
          | none => simp [import_to_nowledge, successShape, hth]
          | some tv => cases tv <;> simp [import_to_nowledge, successShape, hth]
        | null => simp [import_to_nowledge, successShape]
        | bool b => simp [import_to_nowledge, successShape]
        | num n => simp [import_to_nowledge, successShape]
        | str s => simp [import_to_nowledge, successShape]
        | arr xs => simp [import_to_nowledge, successShape]
    · simp [import_to_nowledge, hs]
  · intro hs
    simp [import_to_nowledge, hs]

/-- Witness for C4: the HTTP-500 scenario, with a 250-character body
truncated to 200 characters in the failure message. -/
theorem import_outcome_classification_witness :
    import_to_nowledge (.resp 500 (String.mk (List.replicate 250 'a')) none)
      = (false, "API 错误 " ++ toString (500 : Nat) ++ ": "
          ++ (String.mk (List.replicate 250 'a')).take 200) :=
  (import_outcome_classification 500 (String.mk (List.replicate 250 'a')) none "").2.1
    (by decide)

/-- C5 counterexample: a well-formed JSON conversation whose single
message carries a non-string `content` (the number 5) makes
`parse_chat_file` raise an uncaught `AttributeError` (from `.strip()`)
instead of returning null. -/
theorem parse_nonstring_content_raises :
    parse_chat_file "t" (.valid (.obj [("id", .str "x"),
        ("messages", .arr [.obj [("content", .num 5)]])]))
      = .raised .attributeError := rfl

/-- C5 (amended): `parse_chat_file` returns null (with a warning)
on malformed structured data and on a missing required field — it
catches exactly `JSONDecodeError` and `KeyError` — but any other
exception propagates: a raise is always an `AttributeError` or a
`TypeError` (e.g. from a message whose `content` is present but not a
string). -/
theorem parse_soft_failure_amended (now : String) (fc : FileContent) (e : PyExc) :
    (parse_chat_file now .invalid = .ok none)
    ∧ (parse_chat_file now fc = .raised e →
        e = .attributeError ∨ e = .typeError) := by
  constructor
  · rfl
  · intro h
    cases hb : parseChatBody now fc with
    | ok r =>
      simp only [parse_chat_file, hb] at h
      exact absurd h (by simp)
    | error e2 =>
      simp only [parse_chat_file, hb] at h
      split at h
      · exact absurd h (by simp)
      · rename_i hc
        injection h with h2
        subst h2
        push_neg at hc
        obtain ⟨h3, h4⟩ := hc
        cases e2 <;> simp_all

/-- Witness for C5 (amended): the non-string-content input raises, and
the raised exception is indeed of the propagating kind. -/
theorem parse_soft_failure_amended_witness :
    parse_chat_file "t" FileContent.invalid = ParseResult.ok none
    ∧ (PyExc.attributeError = PyExc.attributeError
        ∨ PyExc.attributeError = PyExc.typeError) :=
  ⟨(parse_soft_failure_amended "t" FileContent.invalid PyExc.attributeError).1,
   (parse_soft_failure_amended "t" (.valid (.obj [("id", .str "x"),
       ("messages", .arr [.obj [("content", .num 5)]])])) PyExc.attributeError).2 rfl⟩

/-- A message list in which every entry is a dict whose `content` is
absent or a string that strips to empty contributes nothing to the
accumulated messages. -/
theorem parseMessages_all_blank (ms : List Json)
    (h : ∀ m ∈ ms, ∃ mf, m = Json.obj mf ∧
        (jsonLookup "content" mf = none
          ∨ ∃ s, jsonLookup "content" mf = some (Json.str s) ∧ pyStrip s = "")) :
    ∀ acc, parseMessages ms acc = .ok acc := by
  induction ms with
  | nil => intro acc; rfl
  | cons m rest ih =>
    intro acc
    obtain ⟨mf, hm, hc⟩ := h m (List.mem_cons_self m rest)
    subst hm
    have ihrest := ih (fun m hm => h m (List.mem_cons_of_mem _ hm))
    rcases hc with hc | ⟨s, hc, hs⟩
    · simp only [parseMessages, hc, Option.getD_none]
      rw [if_pos]
      · exact ihrest acc
      · rfl
    · simp only [parseMessages, hc, Option.getD_some]
      rw [if_pos hs]
      exact ihrest acc

/-- The scenario file of the spec: a single message whose content is
two spaces. -/
def blankChatFile : FileContent :=
  .valid (.obj [("id", .str "abc"), ("title", .str "T"),
    ("messages", .arr [.obj [("role", .str "user"), ("content", .str "  ")]])])

/-- C6: a conversation file whose messages all have missing, empty, or
whitespace-only content (after stripping) parses to null — no record
is produced. -/
theorem parse_all_blank_returns_none (now : String) (fields : List (String × Json))
    (ms : List Json)
    (hm : jsonLookup "messages" fields = some (Json.arr ms))
    (hall : ∀ m ∈ ms, ∃ mf, m = Json.obj mf ∧
        (jsonLookup "content" mf = none
          ∨ ∃ s, jsonLookup "content" mf = some (Json.str s) ∧ pyStrip s = "")) :
    parse_chat_file now (.valid (.obj fields)) = .ok none := by
  have hpm := parseMessages_all_blank ms hall []
  simp [parse_chat_file, parseChatBody, hm, pyIterate, hpm]

/-- Witness for C6: the `chat-1.json` scenario of the spec parses to
null. -/
theorem parse_all_blank_returns_none_witness :
    parse_chat_file "2024-06-01T00:00:00" blankChatFile = .ok none := by
  apply parse_all_blank_returns_none
  · rfl
  · intro m hm
    simp only [List.mem_singleton] at hm
    subst hm
    exact ⟨_, rfl, Or.inr ⟨"  ", rfl, rfl⟩⟩

/-- A well-formed listing page body:
`{threads: [...], pagination: {has_more: b}}`. -/
def mkPage (ts : List Json) (hasMore : Bool) : Json :=
  .obj [("threads", .arr ts), ("pagination", .obj [("has_more", .bool hasMore)])]

/-- C7: when the server answers offset 0 with a full page of 100
records and `has_more: true`, and offset 100 with 37 records and
`has_more: false`, `fetch_existing_threads` accumulates exactly the
137 records and makes exactly the two calls
`(limit 100, offset 0)` and `(limit 100, offset 100)`. -/
theorem fetch_two_pages_scenario (server : Nat → Nat → GetOutcome) (fuel : Nat)
    (ts0 ts1 : List Json)
    (h0 : server 100 0 = .resp 200 (some (mkPage ts0 true)))
    (h1 : server 100 100 = .resp 200 (some (mkPage ts1 false)))
    (hl0 : ts0.length = 100) (hl1 : ts1.length = 37) (hfuel : 2 ≤ fuel) :
    fetch_existing_threads server fuel = some (ts0 ++ ts1, [(100, 0), (100, 100)])
    ∧ (ts0 ++ ts1).length = 137 := by
  obtain ⟨k, hk⟩ := Nat.exists_eq_add_of_le hfuel
  subst hk
  constructor
  · show fetchLoop server (2 + k) 0 [] [] = _
    rw [Nat.add_comm 2 k]
    show fetchLoop server (k + 1 + 1) 0 [] [] = _
    simp [fetchLoop, h0, h1, mkPage, pyGet, jsonLookup, pyIterate, pyTruthy]
  · simp [hl0, hl1]

/-- A server whose first page holds 100 threads (`has_more: true`) and
whose second holds 37 (`has_more: false`), for the C7 witness. -/
def serverTwoPages : Nat → Nat → GetOutcome := fun _ offset =>
  if offset = 0 then .resp 200 (some (mkPage (List.replicate 100 (Json.obj [])) true))
  else if offset = 100 then .resp 200 (some (mkPage (List.replicate 37 (Json.obj [])) false))
  else .connError

/-- Witness for C7: the two-page server yields 137 accumulated records
in exactly two calls. -/
theorem fetch_two_pages_scenario_witness :
    fetch_existing_threads serverTwoPages 2
      = some (List.replicate 100 (Json.obj []) ++ List.replicate 37 (Json.obj []),
              [(100, 0), (100, 100)])
    ∧ (List.replicate 100 (Json.obj []) ++ List.replicate 37 (Json.obj [])).length = 137 :=
  fetch_two_pages_scenario serverTwoPages 2 _ _ rfl rfl (by simp) (by simp) (by norm_num)

/-- A GET outcome after which `fetch_existing_threads` stops paging: a
raised exception (connection error, timeout, anything else) or a
non-200 response. -/
def stopOutcome : GetOutcome → Bool
  | .connError => true
  | .timeout => true
  | .otherExc => true
  | .resp status _ => status ≠ 200

/-- The pagination loop, started at page `j` with `j + d = k`: pages
`j, …, k - 1` succeed with `has_more: true` and page `k` stops the
loop, so the run returns the accumulator extended by pages `j…k-1`
after calls at offsets `100*j, …, 100*k`. -/
theorem fetchLoop_stops (server : Nat → Nat → GetOutcome) (ts : Nat → List Json) (k : Nat)
    (hgood : ∀ i, i < k → server 100 (100 * i) = .resp 200 (some (mkPage (ts i) true)))
    (hstop : stopOutcome (server 100 (100 * k)) = true) :
    ∀ d j fuel acc calls, j + d = k → d < fuel →
      fetchLoop server fuel (100 * j) acc calls
        = some (acc ++ ((List.range' j d).map ts).flatten,
                calls ++ (List.range' j (d + 1)).map (fun i => (100, 100 * i))) := by
  intro d
  induction d with
  | zero =>
    intro j fuel acc calls hjd hfuel
    obtain ⟨f, rfl⟩ : ∃ f, fuel = f + 1 := ⟨fuel - 1, by omega⟩
    have hj : j = k := by omega
    subst hj
    cases ho : server 100 (100 * j) with
    | connError => simp [fetchLoop, ho, List.range'_succ]
    | timeout => simp [fetchLoop, ho, List.range'_succ]
    | otherExc => simp [fetchLoop, ho, List.range'_succ]
    | resp status body =>
      rw [ho] at hstop
      have hst : status ≠ 200 := by simpa [stopOutcome] using hstop
      simp [fetchLoop, ho, hst, List.range'_succ]
  | succ d ih =>
    intro j fuel acc calls hjd hfuel
    obtain ⟨f, rfl⟩ : ∃ f, fuel = f + 1 := ⟨fuel - 1, by omega⟩
    have hj : j < k := by omega
    have hgj := hgood j hj
    have hrec := ih (j + 1) f (acc ++ ts j) (calls ++ [(100, 100 * j)]) (by omega) (by omega)
    have hoff : 100 * j + 100 = 100 * (j + 1) := by ring
    simp only [fetchLoop, hgj]
    simp [mkPage, pyGet, jsonLookup, pyIterate, pyTruthy, hoff]
    rw [hrec]
    simp [List.range'_succ]

/-- C8: when the first `k` pages of the listing succeed with
`has_more: true` and the `(k+1)`-st GET fails — connection failure,
timeout, any other exception, or a non-200 response —
`fetch_existing_threads` returns normally (no raise, no abort) with
exactly the threads accumulated from the `k` completed pages (the
empty list when the very first call fails), having made `k + 1`
calls. -/
theorem fetch_failure_returns_accumulated (server : Nat → Nat → GetOutcome)
    (ts : Nat → List Json) (k fuel : Nat)
    (hgood : ∀ i, i < k → server 100 (100 * i) = .resp 200 (some (mkPage (ts i) true)))
    (hstop : stopOutcome (server 100 (100 * k)) = true)
    (hfuel : k < fuel) :
    fetch_existing_threads server fuel
      = some (((List.range' 0 k).map ts).flatten,
              (List.range' 0 (k + 1)).map (fun i => (100, 100 * i))) := by
  have h := fetchLoop_stops server ts k hgood hstop k 0 fuel [] [] (by omega) hfuel
  simpa [fetch_existing_threads] using h

/-- A server answering one good page and then HTTP 500, for the C8
witness. -/
def serverOneThenFail : Nat → Nat → GetOutcome := fun _ offset =>
  if offset = 0 then .resp 200 (some (mkPage [Json.obj [("id", Json.str "t0")]] true))
  else .resp 500 none

/-- Witness for C8: one completed page then a 500 — the single
accumulated page is returned after two calls. -/
theorem fetch_failure_returns_accumulated_witness :
    fetch_existing_threads serverOneThenFail 2
      = some (((List.range' 0 1).map (fun _ => [Json.obj [("id", Json.str "t0")]])).flatten,
              (List.range' 0 2).map (fun i => (100, 100 * i))) :=
  fetch_failure_returns_accumulated serverOneThenFail
    (fun _ => [Json.obj [("id", Json.str "t0")]]) 1 2
    (fun i hi => by interval_cases i; rfl) rfl (by norm_num)

/-- Every record the parser actually produces has an identifier of the
form `chatwise-` + str(source id) and a metadata dict that contains the
`created_at` key. -/
theorem parseChatBody_shape (now : String) (fc : FileContent) (r : Record)
    (hp : parseChatBody now fc = .ok (some r)) :
    (∃ idv, r.thread_id = "chatwise-" ++ pyStr idv)
    ∧ (∃ v, jsonLookup "created_at" r.metadata = some v) := by
  cases fc with
  | invalid => exact absurd hp (by simp [parseChatBody])
  | valid data =>
    cases data with
    | obj fields =>
      simp only [parseChatBody] at hp
      cases hI : pyIterate ((jsonLookup "messages" fields).getD (Json.arr [])) with
      | none =>
        simp only [hI] at hp
        exact absurd hp (by simp)
      | some ms =>
        simp only [hI] at hp
        cases hP : parseMessages ms [] with
        | error e =>
          simp only [hP] at hp
          exact absurd hp (by simp)
        | ok messages =>
          simp only [hP] at hp
          by_cases hE : messages.isEmpty
          · rw [if_pos hE] at hp
            exact absurd hp (by simp)
          · rw [if_neg hE] at hp
            cases hid : jsonLookup "id" fields with
            | none =>
              simp only [hid] at hp
              exact absurd hp (by simp)
            | some idv =>
              simp only [hid] at hp
              injection hp with hp1
              injection hp1 with hp2
              subst hp2
              exact ⟨⟨idv, rfl⟩, ⟨_, rfl⟩⟩
    | null => exact absurd hp (by simp [parseChatBody])
    | bool b => exact absurd hp (by simp [parseChatBody])
    | num n => exact absurd hp (by simp [parseChatBody])
    | str s => exact absurd hp (by simp [parseChatBody])
    | arr xs => exact absurd hp (by simp [parseChatBody])

/-- Every record `parse_chat_file` returns has an identifier of the
form `chatwise-` + str(source id) and a metadata dict containing the
`created_at` key. -/
theorem parse_chat_file_shape (now : String) (fc : FileContent) (r : Record)
    (hp : parse_chat_file now fc = .ok (some r)) :
    (∃ idv, r.thread_id = "chatwise-" ++ pyStr idv)
    ∧ (∃ v, jsonLookup "created_at" r.metadata = some v) := by
  cases hb : parseChatBody now fc with
  | ok ro =>
    simp only [parse_chat_file, hb] at hp
    injection hp with hp1
    subst hp1
    exact parseChatBody_shape now fc r hb
  | error e2 =>
    simp only [parse_chat_file, hb] at hp
    split at hp
    · exact absurd hp (by simp)
    · exact absurd hp (by simp)

/-- C9: the dedupe set entry for a remote thread without an `id` field
is the empty string, while the identifier of every parsed record extends the
fixed prefix `chatwise-` and so is non-empty: an id-less remote record
can never make a parsed record a duplicate. -/
theorem missing_remote_id_never_duplicate (fields : List (String × Json))
    (now : String) (fc : FileContent) (r : Record)
    (hid : jsonLookup "id" fields = none)
    (hp : parse_chat_file now fc = .ok (some r)) :
    dedupeId (.obj fields) = .ok (.str "")
    ∧ (∃ s, r.thread_id = "chatwise-" ++ s)
    ∧ r.thread_id ≠ "" := by
  obtain ⟨⟨idv, hids⟩, -⟩ := parse_chat_file_shape now fc r hp
  refine ⟨by simp [dedupeId, hid], ⟨pyStr idv, hids⟩, ?_⟩
  intro h0
  rw [hids] at h0
  have hlen := congrArg String.length h0
  rw [String.length_append] at hlen
  have h9 : ("chatwise-" : String).length = 9 := rfl
  have hempty : ("" : String).length = 0 := rfl
  omega

/-- Witness for C9: an id-less remote thread `{"title": "x"}` and the
record parsed from a concrete conversation file. -/
theorem missing_remote_id_never_duplicate_witness :
    dedupeId (.obj [("title", .str "x")]) = .ok (.str "")
    ∧ (∃ s, (Record.mk "chatwise-abc" (.str "T") [⟨"hello", .str "user"⟩] "chatwise"
        "2024-06-01T00:00:00"
        [("original_id", .str "abc"), ("model", .null), ("created_at", .null),
         ("updated_at", .null)]).thread_id = "chatwise-" ++ s)
    ∧ (Record.mk "chatwise-abc" (.str "T") [⟨"hello", .str "user"⟩] "chatwise"
        "2024-06-01T00:00:00"
        [("original_id", .str "abc"), ("model", .null), ("created_at", .null),
         ("updated_at", .null)]).thread_id ≠ "" :=
  missing_remote_id_never_duplicate [("title", .str "x")] "2024-06-01T00:00:00"
    (.valid (.obj [("id", .str "abc"), ("title", .str "T"),
      ("messages", .arr [.obj [("content", .str "hello")]])]))
    _ rfl rfl

/-- A valid conversation file that lacks a `createdAt` field. -/
def chatFileNoCreated : FileContent :=
  .valid (.obj [("id", .str "nodate"), ("title", .str "T2"),
    ("messages", .arr [.obj [("content", .str "hi there")]])])

/-- The record `parse_chat_file` produces for `chatFileNoCreated`. -/
def recNoCreated : Record :=
  { thread_id := "chatwise-nodate", title := .str "T2",
    messages := [⟨"hi there", .str "user"⟩],
    source := "chatwise", import_date := "2024-06-02T00:00:00",
    metadata := [("original_id", .str "nodate"), ("model", .null),
                 ("created_at", .null), ("updated_at", .null)] }

/-- C10: parsing a valid conversation file without `createdAt` succeeds
and stores `None` under the `created_at` metadata key; slicing that
value in the interactive summary (`[:19]`) and in the chat-list table
of `main` (`[:10]`) raises `TypeError` instead of showing a
placeholder; and the `"N/A"`/`""` fallbacks are unreachable, because
the metadata of every parsed record contains the `created_at` key. -/
theorem created_at_null_display_raises (now : String) (fc : FileContent) (r : Record)
    (hp : parse_chat_file now fc = .ok (some r)) :
    parse_chat_file "2024-06-02T00:00:00" chatFileNoCreated = .ok (some recNoCreated)
    ∧ jsonLookup "created_at" recNoCreated.metadata = some Json.null
    ∧ displayCreatedCell recNoCreated = .error .typeError
    ∧ mainCreatedCell recNoCreated = .error .typeError
    ∧ jsonLookup "created_at" r.metadata ≠ none := by
  obtain ⟨-, v, hv⟩ := parse_chat_file_shape now fc r hp
  exact ⟨rfl, rfl, rfl, rfl, by simp [hv]⟩

/-- Witness for C10: the fallback key is present on the concrete parsed
record. -/
theorem created_at_null_display_raises_witness :
    jsonLookup "created_at" recNoCreated.metadata ≠ none :=
  (created_at_null_display_raises "2024-06-02T00:00:00" chatFileNoCreated recNoCreated
    rfl).2.2.2.2

end ChatwiseToNowledge
